import Mathlib

/-!
Verification development for the `process` module of the
`robertdebock/ansible-collection-system` collection
(`plugins/modules/process.py`).

The module is embedded shallowly:

* Pure helpers of the source (`read_pid_file`, `find_process_by_command`,
  `kill_process_tree`, `get_process_info`, `is_process_running`) become
  Lean functions over an explicit `World` describing the OS state that one
  invocation observes (the psutil process table, liveness of identifiers,
  the contents of the configured pid file, and the points at which races
  with the OS occur).
* `main` (minus the argument-spec plumbing and the check-mode
  short-circuit, which the specification places out of scope) becomes
  `step : Params → World → RunResult`, returning the module outcome
  (`exit_json` result or `fail_json` message), the pid-file contents after
  the call, the post-call liveness, and an event log of which processes
  were signalled and spawned.
* Python's `int(...)` on the pid-file text and `str(pid)` on write are
  modelled by `pyInt` / `pyStr` (decimal with optional sign and
  surrounding whitespace; Python's underscore digit grouping and non-ASCII
  digits are not modelled, no claim depends on them).
-/

namespace Process

/-! ## Characters and decimal parsing (Python `int` / `str`) -/

/-- The ten decimal digit characters. -/
def decChars : List Char := ['0', '1', '2', '3', '4', '5', '6', '7', '8', '9']

/-- Decimal digit character for `d < 10` (as produced by `str` on a digit). -/
def digitChar (d : Nat) : Char :=
  match d with
  | 0 => '0' | 1 => '1' | 2 => '2' | 3 => '3' | 4 => '4'
  | 5 => '5' | 6 => '6' | 7 => '7' | 8 => '8' | _ => '9'

/-- Whitespace stripped by Python's `str.strip()` (and by `int` itself). -/
def isPyWs (c : Char) : Bool :=
  c == ' ' || c == '\t' || c == '\n' || c == '\r' || c.toNat == 11 || c.toNat == 12

/-- Strip leading and trailing whitespace from a character list. -/
def pyTrim (cs : List Char) : List Char :=
  ((cs.dropWhile isPyWs).reverse.dropWhile isPyWs).reverse

/-- Big-endian decimal digits, fuelled so that evaluation is structural
(the fuel is always sufficient where used). -/
def natDigitsAux : Nat → Nat → List Char
  | 0, _ => []
  | fuel + 1, n =>
    if n < 10 then [digitChar n]
    else natDigitsAux fuel (n / 10) ++ [digitChar (n % 10)]

/-- Big-endian decimal digits of a natural number, as characters. -/
def natDigits (n : Nat) : List Char := natDigitsAux (n + 1) n

/-- Value of a digit character list, most significant first. -/
def digitsVal (cs : List Char) : Nat :=
  cs.foldl (fun a c => a * 10 + (c.toNat - 48)) 0

/-- Parse a non-empty all-digit character list; `none` otherwise. -/
def parseNatDigits (cs : List Char) : Option Nat :=
  if cs.isEmpty then none
  else if cs.all Char.isDigit then some (digitsVal cs)
  else none

/-- Python `int(s)` on a character list: strip whitespace, optional sign,
decimal digits; `ValueError` becomes `none`. -/
def pyIntList (cs : List Char) : Option Int :=
  match pyTrim cs with
  | [] => none
  | c :: rest =>
    if c = '-' then (parseNatDigits rest).map (fun k => -(k : Int))
    else if c = '+' then (parseNatDigits rest).map (fun k => (k : Int))
    else (parseNatDigits (c :: rest)).map (fun k => (k : Int))

/-- Python `int(s)` (returning `none` in place of `ValueError`). -/
def pyInt (s : String) : Option Int := pyIntList s.toList

/-- Python `str(n)` for an integer. -/
def pyStr (n : Int) : String :=
  if n < 0 then String.mk ('-' :: natDigits n.natAbs)
  else String.mk (natDigits n.natAbs)

/-! ## Data model: process table, OS world, module parameters -/

/-- One entry of the psutil process table, as observed by
`get_process_info` (`cmdline` is already joined with spaces, as in
`' '.join(process.cmdline())`). -/
structure ProcInfo where
  pid : Int
  name : String
  cmdline : String
  status : String
  createTime : Int
  deriving Repr, DecidableEq

/-- Outcome of the blocking launch (`Popen` then `communicate`): normal
completion with a return code and captured output, `TimeoutExpired`, or
any other exception (spawn failure, decode error, ...). -/
inductive BlockingOutcome where
  | completes (rc : Int) (stdout stderr : String)
  | timesOut
  | runError (msg : String)
  deriving Repr, DecidableEq

/-- The OS state observed by one module invocation.

* `pidFile` — contents of the configured pid file (`none` = absent).
* `live` — identifiers for which the `os.kill(pid, 0)` probe succeeds.
* `infos` — psutil's process table in enumeration order; successful
  resolution by `psutil.Process(pid)` is modelled as membership here
  (`NoSuchProcess`/`AccessDenied` at resolution = absence).
* `childrenOf` — the recursive descendant snapshot taken by
  `process.children(recursive=True)`.
* The remaining lists record at which points races or permission errors
  strike during `kill_process_tree`: a pid in `reapedBeforeSignal` has
  vanished by the time its `terminate()` is called (psutil raises
  `NoSuchProcess` there); `deniedSignal` marks `AccessDenied` at
  `terminate()`; `aliveAfterGrace` marks processes still alive after
  `wait_procs`; `reapedBeforeKill` / `deniedKill` mark `NoSuchProcess` /
  `AccessDenied` at the forceful `kill()`.
* `spawnOk`, `freshPid`, `spawnErrMsg` describe the detached
  `subprocess.Popen` call; `blockingOutcome` describes the blocking
  `Popen` + `communicate(timeout=...)` call. -/
structure World where
  pidFile : Option String
  live : List Int
  infos : List ProcInfo
  childrenOf : Int → List Int
  reapedBeforeSignal : List Int
  deniedSignal : List Int
  aliveAfterGrace : List Int
  reapedBeforeKill : List Int
  deniedKill : List Int
  spawnOk : Bool
  freshPid : Int
  spawnErrMsg : String
  blockingOutcome : BlockingOutcome

/-- Module parameters after `AnsibleModule` argument parsing
(`state` is validated by the argument spec to be `present` or
`absent`). `working_dir` and `environment` are passed through to the
spawn primitive only and play no role in the control flow. -/
structure Params where
  command : Option String
  state : String
  background : Bool
  timeout : Int
  pid_file : Option String
  working_dir : Option String
  deriving Repr, DecidableEq

/-- Python truthiness of an optional string (`None` and `''` are falsy). -/
def strTruthy (o : Option String) : Bool :=
  match o with
  | none => false
  | some s => !s.isEmpty

/-- The final result dictionary passed to `exit_json`. -/
structure ModuleResult where
  changed : Bool
  stdout : String
  stderr : String
  status : String
  pid : Option Int := none
  rc : Option Int := none
  deriving Repr, DecidableEq

/-- How an invocation ends: `exit_json` with a result, or `fail_json`
with a message. -/
inductive Outcome where
  | exited (r : ModuleResult)
  | failed (msg : String)
  deriving Repr, DecidableEq

/-- Everything one invocation produces: the outcome plus the post-call
pid-file contents, post-call liveness, and an event log (which pids
`kill_process_tree` was invoked on, whether the blocking process was
`kill()`ed on timeout, and the pid of a detached spawn, if any). -/
structure RunResult where
  outcome : Outcome
  pidFileAfter : Option String
  liveAfter : List Int
  killInvoked : List Int := []
  blockingKilled : Bool := false
  spawnedPid : Option Int := none

/-! ## Embedded module functions -/

/-- `read_pid_file`: return `int(contents.strip())`, or `None` when the
file is absent or `int` raises `ValueError`. -/
def read_pid_file (contents : Option String) : Option Int :=
  match contents with
  | none => none
  | some s => pyInt s

/-- Existence and readability of the pid file as seen by
`os.path.exists` and `open()`: absent, present but unopenable (e.g.
`PermissionError`), or readable with the given contents. -/
inductive FileState where
  | absent
  | unreadable
  | readable (contents : String)
  deriving Repr, DecidableEq

/-- What a call to `read_pid_file` does at the filesystem level: return
a value, or let an `OSError` escape to the caller. -/
inductive PidReadOutcome where
  | returns (pid : Option Int)
  | raisesOSError
  deriving Repr, DecidableEq

/-- `read_pid_file` including the unreadable-file path: the
`open(pid_file, 'r')` sits outside the `try`/`except ValueError`, so
when the file exists but cannot be opened the `OSError` propagates to
the caller (whose calls are unguarded as well). `read_pid_file` above is
the non-raising fragment — the only one that reaches the reconciliation
logic, which is why `World` carries the file as `Option String`. -/
def read_pid_file_fs : FileState → PidReadOutcome
  | .absent => .returns none
  | .unreadable => .raisesOSError
  | .readable s => .returns (pyInt s)

/-- `is_process_running`: the `os.kill(pid, 0)` probe (any `OSError`,
including permission denial, yields `False`). -/
def is_process_running (w : World) (pid : Int) : Bool :=
  w.live.contains pid

/-- psutil resolution: `psutil.Process(pid)` plus the detail fetch;
`NoSuchProcess`/`AccessDenied` is modelled as absence from the table. -/
def lookupInfo (infos : List ProcInfo) (pid : Int) : Option ProcInfo :=
  infos.find? (fun i => i.pid == pid)

/-- `get_process_info`: the info dictionary for a resolvable pid, else
`None`. -/
def get_process_info (w : World) (pid : Int) : Option ProcInfo :=
  lookupInfo w.infos pid

/-- Python's substring test `needle in hay` on character lists. -/
def sublistB (needle : List Char) : List Char → Bool
  | [] => needle.isEmpty
  | c :: t => needle.isPrefixOf (c :: t) || sublistB needle t

/-- Python's substring test `needle in hay` on strings. -/
def strContains (hay needle : String) : Bool :=
  sublistB needle.toList hay.toList

/-- `find_process_by_command`: first process whose joined command line
contains `command`. A `command` of `None` makes the per-process
membership test raise `TypeError`, which the loop absorbs (`continue`),
so the scan returns `None`. -/
def find_process_by_command (infos : List ProcInfo) (command : Option String) :
    Option Int :=
  match infos with
  | [] => none
  | p :: rest =>
    match command with
    | none => find_process_by_command rest none
    | some c =>
      if strContains p.cmdline c then some p.pid
      else find_process_by_command rest (some c)

/-- `kill_process_tree`: resolve the target and its descendant snapshot,
`terminate()` the target (exceptions here are NOT absorbed locally and
fall to the outer handler, returning `False`), `terminate()` each child
(only `NoSuchProcess` absorbed; `AccessDenied` falls to the outer
handler), `wait_procs`, then `kill()` survivors (again only
`NoSuchProcess` absorbed). Negative-pid `ValueError` from
`psutil.Process` is not modelled. -/
def kill_process_tree (w : World) (pid : Int) : Bool :=
  match lookupInfo w.infos pid with
  | none => false
  | some _ =>
    let children := w.childrenOf pid
    if w.reapedBeforeSignal.contains pid || w.deniedSignal.contains pid then
      false
    else if children.any
        (fun c => !w.reapedBeforeSignal.contains c && w.deniedSignal.contains c) then
      false
    else if (children ++ [pid]).any
        (fun q => w.aliveAfterGrace.contains q && !w.reapedBeforeKill.contains q
          && w.deniedKill.contains q) then
      false
    else true

/-- Post-kill liveness: a `True` return means the target and the
snapshotted descendants are gone (terminated in the grace window or
forcefully killed). -/
def liveAfterKill (w : World) (pid : Int) : List Int :=
  w.live.filter (fun q => !(q == pid || (w.childrenOf pid).contains q))

/-- The detached-launch tail of the `present`/background branch:
`shlex.split` + `Popen(..., preexec_fn=os.setsid)`, then record the pid
in the file when `pid_file` is truthy. `fileCleared` records whether the
stale-record `os.unlink` already ran. -/
def launchDetached (p : Params) (w : World) (fileCleared : Bool) : RunResult :=
  if w.spawnOk then
    { outcome := .exited
        { changed := true
          stdout := "Process started with PID " ++ pyStr w.freshPid
          stderr := ""
          status := "running"
          pid := some w.freshPid }
      pidFileAfter :=
        if strTruthy p.pid_file then some (pyStr w.freshPid)
        else if fileCleared then none else w.pidFile
      liveAfter := w.freshPid :: w.live
      spawnedPid := some w.freshPid }
  else
    { outcome := .failed ("Failed to start process: " ++ w.spawnErrMsg)
      pidFileAfter := if fileCleared then none else w.pidFile
      liveAfter := w.live }

/-- The stale-record cleanup tail of the `absent`/pid_file branch:
report `not_running` unchanged and unlink any dangling file. -/
def staleCleanup (w : World) : RunResult :=
  { outcome := .exited
      { changed := false
        stdout := "Process not running"
        stderr := ""
        status := "not_running" }
    pidFileAfter := none
    liveAfter := w.live }

/-- `main` after argument parsing and the check-mode short-circuit (both
declared external collaborators by the specification): the full
reconciliation control flow of `process.py` lines 220–335. -/
def step (p : Params) (w : World) : RunResult :=
  if p.state = "present" ∧ strTruthy p.command = false then
    { outcome := .failed "command is required when state is present"
      pidFileAfter := w.pidFile
      liveAfter := w.live }
  else if p.state = "present" then
    if p.background then
      -- long-running branch: optional pid-file identity check, then launch
      if strTruthy p.pid_file then
        match read_pid_file w.pidFile with
        | some k =>
          if k ≠ 0 ∧ is_process_running w k = true then
            match get_process_info w k with
            | some info =>
              -- command is non-none here thanks to the validation above
              if strContains info.cmdline (p.command.getD "") then
                { outcome := .exited
                    { changed := false
                      stdout := "Process already running with PID " ++ pyStr k
                      stderr := ""
                      status := "running"
                      pid := some k }
                  pidFileAfter := w.pidFile
                  liveAfter := w.live }
              else
                -- stale record: unlink, fall through to launch
                launchDetached p w true
            | none => launchDetached p w true
          else
            launchDetached p w false
        | none => launchDetached p w false
      else
        launchDetached p w false
    else
      -- one-shot branch: Popen + communicate(timeout)
      match w.blockingOutcome with
      | .completes rc out err =>
        { outcome := .exited
            { changed := true
              stdout := out
              stderr := err
              status := "completed"
              rc := some rc }
          pidFileAfter := w.pidFile
          liveAfter := w.live }
      | .timesOut =>
        { outcome := .failed "Process timed out"
          pidFileAfter := w.pidFile
          liveAfter := w.live
          blockingKilled := true }
      | .runError msg =>
        { outcome := .failed ("Failed to run process: " ++ msg)
          pidFileAfter := w.pidFile
          liveAfter := w.live }
  else
    -- state == 'absent'
    if strTruthy p.pid_file then
      match read_pid_file w.pidFile with
      | some k =>
        if k ≠ 0 ∧ is_process_running w k = true then
          if kill_process_tree w k then
            { outcome := .exited
                { changed := true
                  stdout := "Process " ++ pyStr k ++ " and its children stopped"
                  stderr := ""
                  status := "stopped" }
              pidFileAfter := none
              liveAfter := liveAfterKill w k
              killInvoked := [k] }
          else
            { outcome := .failed ("Failed to stop process " ++ pyStr k)
              pidFileAfter := w.pidFile
              liveAfter := w.live
              killInvoked := [k] }
        else
          staleCleanup w
      | none => staleCleanup w
    else
      match find_process_by_command w.infos p.command with
      | some k =>
        if kill_process_tree w k then
          { outcome := .exited
              { changed := true
                stdout := "Process " ++ pyStr k ++ " stopped"
                stderr := ""
                status := "stopped" }
            pidFileAfter := w.pidFile
            liveAfter := liveAfterKill w k
            killInvoked := [k] }
        else
          { outcome := .failed ("Failed to stop process " ++ pyStr k)
            pidFileAfter := w.pidFile
            liveAfter := w.live
            killInvoked := [k] }
      | none =>
        { outcome := .exited
            { changed := false
              stdout := "Process not found"
              stderr := ""
              status := "not_found" }
          pidFileAfter := w.pidFile
          liveAfter := w.live }

/-- A benign default world, overridden per scenario. -/
def w0 : World :=
  { pidFile := none
    live := []
    infos := []
    childrenOf := fun _ => []
    reapedBeforeSignal := []
    deniedSignal := []
    aliveAfterGrace := []
    reapedBeforeKill := []
    deniedKill := []
    spawnOk := true
    freshPid := 100
    spawnErrMsg := ""
    blockingOutcome := .completes 0 "" "" }

/-- Default parameters, overridden per scenario. -/
def p0 : Params :=
  { command := some "mycmd"
    state := "present"
    background := false
    timeout := 300
    pid_file := none
    working_dir := none }

/-! ### Round-trip lemmas for the decimal model -/

theorem digitChar_mem_decChars (d : Nat) : digitChar d ∈ decChars := by
  unfold digitChar decChars
  split <;> simp

theorem digitChar_toNat (d : Nat) (h : d < 10) : (digitChar d).toNat - 48 = d := by
  interval_cases d <;> decide

theorem natDigits_ne_nil (n : Nat) : natDigits n ≠ [] := by
  unfold natDigits natDigitsAux
  split
  · simp
  · simp

theorem natDigitsAux_mem_decChars (fuel : Nat) :
    ∀ n, ∀ c ∈ natDigitsAux fuel n, c ∈ decChars := by
  induction fuel with
  | zero => intro n c hc; simp [natDigitsAux] at hc
  | succ fuel ih =>
    intro n c hc
    unfold natDigitsAux at hc
    split at hc
    · simp at hc
      subst hc
      exact digitChar_mem_decChars n
    · rcases List.mem_append.mp hc with h1 | h2
      · exact ih (n / 10) c h1
      · simp at h2
        subst h2
        exact digitChar_mem_decChars (n % 10)

theorem natDigits_mem_decChars (n : Nat) : ∀ c ∈ natDigits n, c ∈ decChars :=
  natDigitsAux_mem_decChars (n + 1) n

theorem decChar_isDigit {c : Char} (h : c ∈ decChars) : c.isDigit = true := by
  fin_cases h <;> decide

theorem decChar_not_ws {c : Char} (h : c ∈ decChars) : isPyWs c = false := by
  fin_cases h <;> decide

theorem decChar_toNat_lt {c : Char} (h : c ∈ decChars) :
    48 ≤ c.toNat ∧ c.toNat ≤ 57 := by
  fin_cases h <;> decide

theorem digitsVal_append_digit (cs : List Char) (c : Char) :
    digitsVal (cs ++ [c]) = digitsVal cs * 10 + (c.toNat - 48) := by
  unfold digitsVal
  rw [List.foldl_append]
  rfl

theorem digitsVal_natDigitsAux (fuel : Nat) :
    ∀ n, n < 10 ^ fuel → digitsVal (natDigitsAux fuel n) = n := by
  induction fuel with
  | zero =>
    intro n hn
    simp at hn
    subst hn
    rfl
  | succ fuel ih =>
    intro n hn
    unfold natDigitsAux
    split
    · rename_i h
      unfold digitsVal
      simp [digitChar_toNat n h]
    · rename_i h
      rw [digitsVal_append_digit]
      have hdiv : n / 10 < 10 ^ fuel := by
        rw [Nat.div_lt_iff_lt_mul (by omega)]
        calc n < 10 ^ (fuel + 1) := hn
        _ = 10 ^ fuel * 10 := by rw [pow_succ]
      rw [ih (n / 10) hdiv]
      rw [digitChar_toNat (n % 10) (Nat.mod_lt _ (by omega))]
      omega

theorem digitsVal_natDigits (n : Nat) : digitsVal (natDigits n) = n := by
  apply digitsVal_natDigitsAux (n + 1) n
  calc n < 10 ^ n := Nat.lt_pow_self (by omega) n
  _ ≤ 10 ^ (n + 1) := Nat.pow_le_pow_right (by omega) (by omega)

theorem natDigits_all_digit (n : Nat) : (natDigits n).all Char.isDigit = true := by
  rw [List.all_eq_true]
  intro c hc
  exact decChar_isDigit (natDigits_mem_decChars n c hc)

theorem parseNatDigits_natDigits (n : Nat) :
    parseNatDigits (natDigits n) = some n := by
  unfold parseNatDigits
  rw [if_neg (by simp [natDigits_ne_nil n])]
  rw [if_pos (natDigits_all_digit n)]
  rw [digitsVal_natDigits]

theorem dropWhile_ws_eq_self {l : List Char} (h : ∀ c ∈ l, isPyWs c = false) :
    l.dropWhile isPyWs = l := by
  cases l with
  | nil => rfl
  | cons a t => simp [List.dropWhile_cons, h a (by simp)]

theorem pyTrim_eq_self {l : List Char} (h : ∀ c ∈ l, isPyWs c = false) :
    pyTrim l = l := by
  unfold pyTrim
  rw [dropWhile_ws_eq_self h]
  rw [dropWhile_ws_eq_self (fun c hc => h c (List.mem_reverse.mp hc))]
  exact List.reverse_reverse l

theorem pyInt_pyStr (n : Int) : pyInt (pyStr n) = some n := by
  unfold pyInt pyStr
  split
  · rename_i hneg
    show pyIntList ('-' :: natDigits n.natAbs) = some n
    unfold pyIntList
    rw [pyTrim_eq_self ?_]
    · show (if ('-' : Char) = '-' then
          (parseNatDigits (natDigits n.natAbs)).map (fun k => -(k : Int))
        else if ('-' : Char) = '+' then
          (parseNatDigits (natDigits n.natAbs)).map (fun k => (k : Int))
        else
          (parseNatDigits ('-' :: natDigits n.natAbs)).map (fun k => (k : Int)))
        = some n
      rw [if_pos rfl, parseNatDigits_natDigits]
      show some (-(n.natAbs : Int)) = some n
      rw [show -(n.natAbs : Int) = n by omega]
    · intro c hc
      rcases List.mem_cons.mp hc with h1 | h2
      · subst h1; decide
      · exact decChar_not_ws (natDigits_mem_decChars _ c h2)
  · rename_i hpos
    show pyIntList (natDigits n.natAbs) = some n
    unfold pyIntList
    rw [pyTrim_eq_self
      (fun c hc => decChar_not_ws (natDigits_mem_decChars _ c hc))]
    obtain ⟨d, ds, hds⟩ := List.exists_cons_of_ne_nil (natDigits_ne_nil n.natAbs)
    have hd : d ∈ decChars := by
      apply natDigits_mem_decChars n.natAbs
      rw [hds]; simp
    have h48 := decChar_toNat_lt hd
    have hne1 : ¬ d = '-' := by
      intro he; subst he; revert h48; decide
    have hne2 : ¬ d = '+' := by
      intro he; subst he; revert h48; decide
    rw [hds]
    show (if d = '-' then
        (parseNatDigits ds).map (fun k => -(k : Int))
      else if d = '+' then
        (parseNatDigits ds).map (fun k => (k : Int))
      else
        (parseNatDigits (d :: ds)).map (fun k => (k : Int)))
      = some n
    rw [if_neg hne1, if_neg hne2, ← hds, parseNatDigits_natDigits]
    show some ((n.natAbs : Int)) = some n
    rw [show ((n.natAbs : Int)) = n by omega]

/-! ## General lemmas about the embedded functions -/

theorem contains_iff_mem {l : List Int} {a : Int} : l.contains a = true ↔ a ∈ l :=
  List.elem_iff

theorem contains_eq_false_iff {l : List Int} {a : Int} :
    l.contains a = false ↔ a ∉ l := by
  constructor
  · intro h hm
    have hc := contains_iff_mem.mpr hm
    rw [h] at hc
    exact Bool.false_ne_true hc
  · intro h
    cases hb : l.contains a with
    | false => rfl
    | true => exact absurd (contains_iff_mem.mp hb) h

/-- A `command` of `None` makes every per-process membership test raise
`TypeError`, absorbed by the loop, so the scan finds nothing. -/
theorem find_process_by_command_none (infos : List ProcInfo) :
    find_process_by_command infos none = none := by
  induction infos with
  | nil => rfl
  | cons p rest ih => simpa [find_process_by_command] using ih

/-! ## Claim theorems -/

/-- C3 counterexample: two divergences, each at a concrete input. A pid
file whose content parses to the negative integer `-5` is read back as
`-5`, not as "no record" — Python's `int()` accepts a leading minus sign
and `read_pid_file` returns whatever it parses. And a file that exists
but cannot be opened does not degrade to "no record": the `open()` is
outside the `try`, so the `OSError` propagates instead of returning
`None`. -/
theorem read_pid_file_counterexample :
    read_pid_file (some "-5") = some (-5) ∧
    read_pid_file (some "-5") ≠ none ∧
    read_pid_file_fs .unreadable = .raisesOSError ∧
    read_pid_file_fs .unreadable ≠ .returns none := by
  refine ⟨by decide, by decide, rfl, by decide⟩

/-- C3 amended: on a readable file, `read_pid_file` returns the stored
integer for any integer content — including negative integers — and
returns none exactly when the file is absent or its contents do not
parse as an integer (a `ValueError` degrades to "no record" without an
error); but a file that exists and is unreadable (e.g. permission
denied) raises instead of degrading, because the `open()` sits outside
the `try`. -/
theorem read_pid_file_amended :
    (∀ n : Int, read_pid_file (some (pyStr n)) = some n) ∧
    read_pid_file none = none ∧
    read_pid_file (some "junk") = none ∧
    read_pid_file (some "") = none ∧
    read_pid_file (some " 12\n") = some 12 ∧
    (∀ s, read_pid_file_fs (.readable s) = .returns (read_pid_file (some s))) ∧
    read_pid_file_fs .absent = .returns (read_pid_file none) ∧
    read_pid_file_fs .unreadable = .raisesOSError := by
  refine ⟨fun n => pyInt_pyStr n, rfl, by decide, rfl, by decide,
    fun s => rfl, rfl, rfl⟩

/-- C2 counterexample: a target that is resolved (present in the psutil
table) but vanishes between resolution and the graceful signal makes
`process.terminate()` raise `NoSuchProcess`, which is caught only by the
outer handler — `kill_process_tree` returns `False`, contradicting the
claim that every resolved-then-exited target yields `True`. -/
theorem kill_process_tree_target_gone_counterexample :
    (lookupInfo
      { w0 with
        infos := [⟨42, "mycmd", "mycmd run", "sleeping", 0⟩]
        reapedBeforeSignal := [42] }.infos 42).isSome = true ∧
    kill_process_tree
      { w0 with
        infos := [⟨42, "mycmd", "mycmd run", "sleeping", 0⟩]
        reapedBeforeSignal := [42] } 42 = false := by
  constructor
  · rfl
  · rfl

/-- C2 amended: `kill_process_tree` returns `True` exactly when the
target is resolved, the target itself neither vanishes nor is
permission-denied at the graceful signal, and no descendant's signalling
raises a permission error; descendants that are already gone at the
graceful or forceful step are absorbed. In particular the result is
`False` — not `True` — for a resolved target that exits between
resolution and the graceful signal. -/
theorem kill_process_tree_characterization (w : World) (pid : Int) :
    kill_process_tree w pid = true ↔
      (∃ i, lookupInfo w.infos pid = some i) ∧
      pid ∉ w.reapedBeforeSignal ∧
      pid ∉ w.deniedSignal ∧
      (∀ c ∈ w.childrenOf pid, c ∈ w.deniedSignal → c ∈ w.reapedBeforeSignal) ∧
      (∀ q ∈ w.childrenOf pid ++ [pid],
        q ∈ w.aliveAfterGrace → q ∈ w.deniedKill → q ∈ w.reapedBeforeKill) := by
  unfold kill_process_tree
  cases h : lookupInfo w.infos pid with
  | none => simp [h]
  | some i =>
    simp only [h]
    constructor
    · intro ht
      refine ⟨⟨i, rfl⟩, ?_⟩
      by_cases h1 : (w.reapedBeforeSignal.contains pid
          || w.deniedSignal.contains pid) = true
      · rw [if_pos h1] at ht; exact absurd ht (by simp)
      · rw [if_neg h1] at ht
        simp only [Bool.or_eq_true, contains_iff_mem, not_or] at h1
        refine ⟨h1.1, h1.2, ?_⟩
        by_cases h2 : ((w.childrenOf pid).any
            (fun c => !w.reapedBeforeSignal.contains c
              && w.deniedSignal.contains c)) = true
        · rw [if_pos h2] at ht; exact absurd ht (by simp)
        · rw [if_neg h2] at ht
          simp only [List.any_eq_true, Bool.and_eq_true, Bool.not_eq_true',
            contains_iff_mem, not_exists, not_and] at h2
          constructor
          · intro c hc hd
            by_contra hr
            exact absurd hd (h2 c hc (contains_eq_false_iff.mpr hr))
          · by_cases h3 : (((w.childrenOf pid) ++ [pid]).any
                (fun q => w.aliveAfterGrace.contains q
                  && !w.reapedBeforeKill.contains q
                  && w.deniedKill.contains q)) = true
            · rw [if_pos h3] at ht; exact absurd ht (by simp)
            · intro q hq ha hd
              by_contra hr
              apply h3
              rw [List.any_eq_true]
              exact ⟨q, hq, by
                simp only [Bool.and_eq_true, Bool.not_eq_true', contains_iff_mem]
                exact ⟨⟨ha, by simpa [contains_iff_mem] using hr⟩, hd⟩⟩
    · rintro ⟨⟨j, hj⟩, hr1, hd1, hch, hsv⟩
      rw [if_neg ?_, if_neg ?_, if_neg ?_]
      · intro hcon
        rw [List.any_eq_true] at hcon
        obtain ⟨q, hq, hb⟩ := hcon
        simp only [Bool.and_eq_true, Bool.not_eq_true', contains_iff_mem] at hb
        have := hsv q hq hb.1.1 hb.2
        rw [← contains_iff_mem] at this
        rw [hb.1.2] at this
        exact Bool.false_ne_true this
      · intro hcon
        rw [List.any_eq_true] at hcon
        obtain ⟨c, hc, hb⟩ := hcon
        simp only [Bool.and_eq_true, Bool.not_eq_true', contains_iff_mem] at hb
        have := hch c hc hb.2
        rw [← contains_iff_mem] at this
        rw [hb.1] at this
        exact Bool.false_ne_true this
      · simp only [Bool.or_eq_true, contains_iff_mem]
        push_neg
        exact ⟨hr1, hd1⟩

/-- C1 counterexample: `absent` with a pid_file recording the live pid 42
whose observed command line ("unrelated program") does not contain the
configured command ("mycmd") still invokes `kill_process_tree` on 42 and
reports it stopped — the absent path performs no identity check, so
"no termination is performed" fails at this input. -/
theorem absent_skips_identity_check_counterexample :
    read_pid_file (some "42") = some 42 ∧
    is_process_running
      { w0 with pidFile := some "42", live := [42],
                infos := [⟨42, "other", "unrelated program", "sleeping", 0⟩] }
      42 = true ∧
    get_process_info
      { w0 with pidFile := some "42", live := [42],
                infos := [⟨42, "other", "unrelated program", "sleeping", 0⟩] }
      42 = some ⟨42, "other", "unrelated program", "sleeping", 0⟩ ∧
    strContains "unrelated program" "mycmd" = false ∧
    (step { p0 with state := "absent", pid_file := some "/run/x.pid" }
      { w0 with pidFile := some "42", live := [42],
                infos := [⟨42, "other", "unrelated program", "sleeping", 0⟩]
        }).killInvoked = [42] ∧
    (step { p0 with state := "absent", pid_file := some "/run/x.pid" }
      { w0 with pidFile := some "42", live := [42],
                infos := [⟨42, "other", "unrelated program", "sleeping", 0⟩]
        }).outcome
      = .exited
          { changed := true, stdout := "Process 42 and its children stopped",
            stderr := "", status := "stopped" } := by
  decide

/-- C1 amended: for target `absent` with a pid_file configured, the
reconciler invokes termination on the recorded identifier whenever it is
nonzero and live in the OS process table — regardless of the observed
command line; the matching-enough identity check is not performed on the
absent path. -/
theorem absent_pidfile_kill_no_identity_check (p : Params) (w : World) (k : Int)
    (hs : p.state = "absent") (hp : strTruthy p.pid_file = true)
    (hr : read_pid_file w.pidFile = some k) (hk : k ≠ 0)
    (hl : is_process_running w k = true) :
    (step p w).killInvoked = [k] := by
  have hne : p.state ≠ "present" := by rw [hs]; decide
  unfold step
  simp [hne, hp, hr, hk, hl]
  split <;> rfl

/-- C1 amended witness: the live non-matching pid 42 is passed to
`kill_process_tree`. -/
theorem absent_pidfile_kill_no_identity_check_witness :
    (step { p0 with state := "absent", pid_file := some "/run/x.pid" }
      { w0 with pidFile := some "42", live := [42],
                infos := [⟨42, "other", "unrelated program", "sleeping", 0⟩]
        }).killInvoked = [42] :=
  absent_pidfile_kill_no_identity_check _ _ 42 rfl (by decide) (by decide)
    (by decide) (by decide)

/-- C5: `present`+background with a pid_file naming a live process whose
command line does not contain the configured command treats the record as
stale: it clears the record, launches a new detached process, persists
the new identifier, and reports `changed=true` with the fresh pid (never
"already running"). -/
theorem present_identity_guard (p : Params) (w : World) (k : Int)
    (i : ProcInfo) (c : String)
    (hs : p.state = "present") (hb : p.background = true)
    (hcmd : p.command = some c) (hct : strTruthy p.command = true)
    (hp : strTruthy p.pid_file = true)
    (hr : read_pid_file w.pidFile = some k) (hk : k ≠ 0)
    (hl : is_process_running w k = true)
    (hi : get_process_info w k = some i)
    (hmis : strContains i.cmdline c = false)
    (hspawn : w.spawnOk = true) :
    (step p w).outcome = .exited
        { changed := true,
          stdout := "Process started with PID " ++ pyStr w.freshPid,
          stderr := "", status := "running", pid := some w.freshPid } ∧
    (step p w).pidFileAfter = some (pyStr w.freshPid) ∧
    (step p w).spawnedPid = some w.freshPid := by
  have hct' : strTruthy (some c) = true := by rw [← hcmd]; exact hct
  unfold step
  simp [hs, hb, hcmd, hct', hp, hr, hk, hl, hi, hmis, launchDetached, hspawn]

/-- C5 witness: a live pid 42 with command line "unrelated program"
recorded for command "mycmd" is replaced by a fresh detached launch
(pid 100), which is persisted and reported changed. -/
theorem present_identity_guard_witness :
    (step { p0 with background := true, pid_file := some "/run/x.pid" }
      { w0 with pidFile := some "42", live := [42],
                infos := [⟨42, "other", "unrelated program", "sleeping", 0⟩]
        }).outcome
      = .exited
          { changed := true, stdout := "Process started with PID " ++ pyStr 100,
            stderr := "", status := "running", pid := some 100 } ∧
    (step { p0 with background := true, pid_file := some "/run/x.pid" }
      { w0 with pidFile := some "42", live := [42],
                infos := [⟨42, "other", "unrelated program", "sleeping", 0⟩]
        }).pidFileAfter = some (pyStr 100) ∧
    (step { p0 with background := true, pid_file := some "/run/x.pid" }
      { w0 with pidFile := some "42", live := [42],
                infos := [⟨42, "other", "unrelated program", "sleeping", 0⟩]
        }).spawnedPid = some 100 :=
  present_identity_guard _ _ 42 ⟨42, "other", "unrelated program", "sleeping", 0⟩
    "mycmd" rfl rfl rfl (by decide) (by decide) (by decide) (by decide)
    (by decide) (by decide) (by decide) rfl

/-- C6: `absent` with a pid_file whose record is absent, malformed, or
names a non-live identifier reports `not_running` with `changed=false`,
invokes no termination, and removes the dangling file. -/
theorem absent_stale_cleanup (p : Params) (w : World)
    (hs : p.state = "absent") (hp : strTruthy p.pid_file = true)
    (hstale : read_pid_file w.pidFile = none ∨
      ∃ k, read_pid_file w.pidFile = some k ∧ is_process_running w k = false) :
    (step p w).outcome = .exited
        { changed := false, stdout := "Process not running",
          stderr := "", status := "not_running" } ∧
    (step p w).pidFileAfter = none ∧
    (step p w).killInvoked = [] := by
  have hne : p.state ≠ "present" := by rw [hs]; decide
  unfold step
  rcases hstale with h | ⟨k, hk, hd⟩
  · simp [hne, hp, h, staleCleanup]
  · simp [hne, hp, hk, hd, staleCleanup]

/-- C6 witness: a pid file recording the dead pid 999 is deleted and the
call reports `not_running` unchanged. -/
theorem absent_stale_cleanup_witness :
    (step { p0 with state := "absent", pid_file := some "/run/x.pid" }
      { w0 with pidFile := some "999" }).outcome
      = .exited
          { changed := false, stdout := "Process not running",
            stderr := "", status := "not_running" } ∧
    (step { p0 with state := "absent", pid_file := some "/run/x.pid" }
      { w0 with pidFile := some "999" }).pidFileAfter = none ∧
    (step { p0 with state := "absent", pid_file := some "/run/x.pid" }
      { w0 with pidFile := some "999" }).killInvoked = [] :=
  absent_stale_cleanup _ _ rfl (by decide)
    (Or.inr ⟨999, by decide, by decide⟩)

/-- C4: invoking `present`+background with pid_file and an unchanged
command twice yields `changed=true` then `changed=false`, both reporting
the same live identifier, and the second run launches nothing —
given that the first run starts from no record, the spawn succeeds, and
the launched process is still alive with a command line containing the
command when the second run observes it. -/
theorem present_background_idempotent (p : Params) (w1 w2 : World)
    (c : String) (i : ProcInfo)
    (hs : p.state = "present") (hb : p.background = true)
    (hcmd : p.command = some c) (hct : strTruthy p.command = true)
    (hp : strTruthy p.pid_file = true)
    (h1 : w1.pidFile = none)
    (hspawn : w1.spawnOk = true)
    (hfresh : w1.freshPid ≠ 0)
    (h2file : w2.pidFile = (step p w1).pidFileAfter)
    (h2live : is_process_running w2 w1.freshPid = true)
    (h2info : get_process_info w2 w1.freshPid = some i)
    (h2match : strContains i.cmdline c = true) :
    (step p w1).outcome = .exited
        { changed := true,
          stdout := "Process started with PID " ++ pyStr w1.freshPid,
          stderr := "", status := "running", pid := some w1.freshPid } ∧
    (step p w1).spawnedPid = some w1.freshPid ∧
    (step p w2).outcome = .exited
        { changed := false,
          stdout := "Process already running with PID " ++ pyStr w1.freshPid,
          stderr := "", status := "running", pid := some w1.freshPid } ∧
    (step p w2).spawnedPid = none := by
  have hct' : strTruthy (some c) = true := by rw [← hcmd]; exact hct
  have hrun1 : step p w1 = launchDetached p w1 false := by
    unfold step
    simp [hs, hb, hcmd, hct', hp, h1, read_pid_file]
  have hpf : (step p w1).pidFileAfter = some (pyStr w1.freshPid) := by
    rw [hrun1]; unfold launchDetached; simp [hspawn, hp]
  have hread : read_pid_file (some (pyStr w1.freshPid)) = some w1.freshPid := by
    unfold read_pid_file; exact pyInt_pyStr _
  refine ⟨?_, ?_, ?_, ?_⟩
  · rw [hrun1]; unfold launchDetached; simp [hspawn]
  · rw [hrun1]; unfold launchDetached; simp [hspawn]
  · unfold step
    rw [h2file, hpf]
    simp [hs, hb, hcmd, hct', hp, hread, hfresh, h2live, h2info, h2match]
  · unfold step
    rw [h2file, hpf]
    simp [hs, hb, hcmd, hct', hp, hread, hfresh, h2live, h2info, h2match]

/-- C4 witness: first run launches pid 100 and reports changed; second
run, observing 100 alive with a matching command line, reports unchanged
with the same pid and spawns nothing. -/
theorem present_background_idempotent_witness :
    (step { p0 with background := true, pid_file := some "/run/a.pid" }
      w0).outcome
      = .exited
          { changed := true, stdout := "Process started with PID " ++ pyStr 100,
            stderr := "", status := "running", pid := some 100 } ∧
    (step { p0 with background := true, pid_file := some "/run/a.pid" }
      w0).spawnedPid = some 100 ∧
    (step { p0 with background := true, pid_file := some "/run/a.pid" }
      { w0 with pidFile := some "100", live := [100],
                infos := [⟨100, "mycmd", "mycmd --flag", "running", 0⟩]
        }).outcome
      = .exited
          { changed := false,
            stdout := "Process already running with PID " ++ pyStr 100,
            stderr := "", status := "running", pid := some 100 } ∧
    (step { p0 with background := true, pid_file := some "/run/a.pid" }
      { w0 with pidFile := some "100", live := [100],
                infos := [⟨100, "mycmd", "mycmd --flag", "running", 0⟩]
        }).spawnedPid = none :=
  present_background_idempotent _ _ _ "mycmd"
    ⟨100, "mycmd", "mycmd --flag", "running", 0⟩
    rfl rfl rfl (by decide) (by decide) rfl rfl (by decide) (by decide)
    (by decide) (by decide) (by decide)

/-- C8 counterexample: a successful blocking (`background=false`)
invocation with a pid_file configured leaves the pre-existing record
pointing at the dead identifier 42 — the blocking branch never consults
or cleans the record, so "no successfully returning path leaves the
PidRecord file pointing at a dead identifier" fails at this input. -/
theorem blocking_leaves_stale_record_counterexample :
    (step { p0 with background := false, pid_file := some "/run/x.pid" }
      { w0 with pidFile := some "42" }).outcome
      = .exited
          { changed := true, stdout := "", stderr := "",
            status := "completed", rc := some 0 } ∧
    read_pid_file
      (step { p0 with background := false, pid_file := some "/run/x.pid" }
        { w0 with pidFile := some "42" }).pidFileAfter = some 42 ∧
    (step { p0 with background := false, pid_file := some "/run/x.pid" }
      { w0 with pidFile := some "42" }).liveAfter.contains 42 = false := by
  decide

/-- The detached-launch tail always exits with status `running` and, when
a pid_file is configured, records exactly the fresh live identifier. -/
theorem launchDetached_ok (p : Params) (w : World) (fc : Bool)
    (r : ModuleResult)
    (hx : (launchDetached p w fc).outcome = .exited r) :
    r.status = "running" ∧
    (strTruthy p.pid_file = true →
      ∀ k, read_pid_file (launchDetached p w fc).pidFileAfter = some k →
        (launchDetached p w fc).liveAfter.contains k = true) := by
  revert hx
  unfold launchDetached
  split
  · intro hx
    simp only [Outcome.exited.injEq] at hx
    subst hx
    refine ⟨rfl, ?_⟩
    intro hp k hk
    rw [if_pos hp] at hk
    rw [show read_pid_file (some (pyStr w.freshPid)) = some w.freshPid from
      pyInt_pyStr _] at hk
    injection hk with hk
    subst hk
    simp [List.contains_cons]
  · intro hx
    simp at hx

/-- C8 amended: every successful exit carries exactly one of the five
status values, and the no-dead-record guarantee holds for every
invocation that manages the record — `background=true` or target
`absent`; a blocking `present` invocation ignores the configured
pid_file entirely and can leave a pre-existing stale record behind. -/
theorem state_transition_guarantee (p : Params) (w : World)
    (r : ModuleResult)
    (hx : (step p w).outcome = .exited r) :
    (r.status = "running" ∨ r.status = "completed" ∨ r.status = "stopped" ∨
      r.status = "not_running" ∨ r.status = "not_found") ∧
    ((p.background = true ∨ p.state ≠ "present") →
      strTruthy p.pid_file = true →
      ∀ k, read_pid_file (step p w).pidFileAfter = some k →
        (step p w).liveAfter.contains k = true) := by
  revert hx
  unfold step
  split
  · intro hx; simp at hx
  · split
    · -- state == 'present'
      rename_i hval hpres
      split
      · -- background
        split
        · -- pid_file truthy
          rename_i hpf
          split
          · -- read_pid_file = some k0
            rename_i k0 heq
            split
            · -- k0 nonzero and live
              rename_i hlive
              split
              · -- proc info resolved
                split
                · -- command matches: already-running exit
                  intro hx
                  simp only [Outcome.exited.injEq] at hx
                  subst hx
                  refine ⟨Or.inl rfl, ?_⟩
                  intro _ _ k hk
                  simp only [heq, Option.some.injEq] at hk
                  subst hk
                  exact hlive.2
                · -- stale: cleared and relaunched
                  intro hx
                  have h := launchDetached_ok p w true r hx
                  exact ⟨Or.inl h.1, fun _ => h.2⟩
              · intro hx
                have h := launchDetached_ok p w true r hx
                exact ⟨Or.inl h.1, fun _ => h.2⟩
            · intro hx
              have h := launchDetached_ok p w false r hx
              exact ⟨Or.inl h.1, fun _ => h.2⟩
          · intro hx
            have h := launchDetached_ok p w false r hx
            exact ⟨Or.inl h.1, fun _ => h.2⟩
        · -- pid_file falsy
          rename_i hpf
          intro hx
          have h := launchDetached_ok p w false r hx
          refine ⟨Or.inl h.1, ?_⟩
          intro _ hp
          rw [hp] at hpf
          exact absurd rfl hpf
      · -- blocking
        rename_i hbg
        split
        · intro hx
          simp only [Outcome.exited.injEq] at hx
          subst hx
          refine ⟨Or.inr (Or.inl rfl), ?_⟩
          intro hor _
          rcases hor with hb | hs
          · exact absurd hb hbg
          · exact absurd hpres hs
        · intro hx; simp at hx
        · intro hx; simp at hx
    · -- state == 'absent'
      rename_i hpres
      split
      · -- pid_file truthy
        split
        · -- read_pid_file = some k0
          split
          · -- k0 nonzero and live
            split
            · -- kill succeeded: record removed
              intro hx
              simp only [Outcome.exited.injEq] at hx
              subst hx
              refine ⟨Or.inr (Or.inr (Or.inl rfl)), ?_⟩
              intro _ _ k hk
              simp [read_pid_file] at hk
            · intro hx; simp at hx
          · -- stale cleanup
            intro hx
            simp only [staleCleanup, Outcome.exited.injEq] at hx
            subst hx
            refine ⟨Or.inr (Or.inr (Or.inr (Or.inl rfl))), ?_⟩
            intro _ _ k hk
            simp [staleCleanup, read_pid_file] at hk
        · intro hx
          simp only [staleCleanup, Outcome.exited.injEq] at hx
          subst hx
          refine ⟨Or.inr (Or.inr (Or.inr (Or.inl rfl))), ?_⟩
          intro _ _ k hk
          simp [staleCleanup, read_pid_file] at hk
      · -- no pid_file: find by command
        rename_i hpf
        split
        · split
          · intro hx
            simp only [Outcome.exited.injEq] at hx
            subst hx
            refine ⟨Or.inr (Or.inr (Or.inl rfl)), ?_⟩
            intro _ hp
            rw [hp] at hpf
            exact absurd rfl hpf
          · intro hx; simp at hx
        · intro hx
          simp only [Outcome.exited.injEq] at hx
          subst hx
          refine ⟨Or.inr (Or.inr (Or.inr (Or.inr rfl))), ?_⟩
          intro _ hp
          rw [hp] at hpf
          exact absurd rfl hpf

/-- C8 amended witness: a concrete `absent` stale-cleanup run exits with
one of the five statuses and leaves no record pointing at a dead pid. -/
theorem state_transition_guarantee_witness :
    (({ changed := false, stdout := "Process not running", stderr := "", status := "not_running" } : ModuleResult).status = "running" ∨
      ({ changed := false, stdout := "Process not running", stderr := "", status := "not_running" } : ModuleResult).status = "completed" ∨
      ({ changed := false, stdout := "Process not running", stderr := "", status := "not_running" } : ModuleResult).status = "stopped" ∨
      ({ changed := false, stdout := "Process not running", stderr := "", status := "not_running" } : ModuleResult).status = "not_running" ∨
      ({ changed := false, stdout := "Process not running", stderr := "", status := "not_running" } : ModuleResult).status = "not_found") ∧
    ((({ p0 with state := "absent", pid_file := some "/run/x.pid" } : Params).background = true ∨
      ({ p0 with state := "absent", pid_file := some "/run/x.pid" } : Params).state ≠ "present") →
      strTruthy ({ p0 with state := "absent", pid_file := some "/run/x.pid" } : Params).pid_file = true →
      ∀ k, read_pid_file (step { p0 with state := "absent", pid_file := some "/run/x.pid" } { w0 with pidFile := some "999" }).pidFileAfter = some k →
        (step { p0 with state := "absent", pid_file := some "/run/x.pid" } { w0 with pidFile := some "999" }).liveAfter.contains k = true) :=
  state_transition_guarantee
    { p0 with state := "absent", pid_file := some "/run/x.pid" }
    { w0 with pidFile := some "999" }
    { changed := false, stdout := "Process not running", stderr := "", status := "not_running" }
    (by decide)

/-- C9: a blocking launch that completes within the timeout reports
`changed=true`, status `completed`, and the process's return code —
whatever it is; a nonzero exit code does not fail the invocation. -/
theorem blocking_completion_reports_rc (p : Params) (w : World) (rc : Int)
    (out err : String)
    (hs : p.state = "present") (hb : p.background = false)
    (hc : strTruthy p.command = true)
    (ho : w.blockingOutcome = .completes rc out err) :
    (step p w).outcome = .exited
      { changed := true, stdout := out, stderr := err,
        status := "completed", pid := none, rc := some rc } := by
  unfold step
  rw [hs, hb, ho]
  simp [hc]

/-- C9 witness: a command exiting with return code 7 still yields a
successful `completed` result carrying `rc = 7`. -/
theorem blocking_completion_reports_rc_witness :
    (step { p0 with background := false }
      { w0 with blockingOutcome := .completes 7 "out" "" }).outcome
      = .exited
          { changed := true, stdout := "out", stderr := "",
            status := "completed", pid := none, rc := some 7 } :=
  blocking_completion_reports_rc _ _ 7 "out" "" rfl rfl (by decide) rfl

/-- C7: a blocking launch that exceeds the timeout forcefully kills the
spawned process and fails the invocation with the timeout error; no
partial result (no `rc`/`stdout`/`stderr` from the run) is returned. -/
theorem blocking_timeout_kills_and_fails (p : Params) (w : World)
    (hs : p.state = "present") (hb : p.background = false)
    (hc : strTruthy p.command = true)
    (ht : w.blockingOutcome = .timesOut) :
    (step p w).outcome = .failed "Process timed out" ∧
    (step p w).blockingKilled = true := by
  unfold step
  rw [hs, hb, ht]
  simp [hc]

/-- C7 witness: a concrete timing-out blocking launch is killed and
fails with the timeout message. -/
theorem blocking_timeout_kills_and_fails_witness :
    (step { p0 with background := false }
      { w0 with blockingOutcome := .timesOut }).outcome
        = .failed "Process timed out" ∧
    (step { p0 with background := false }
      { w0 with blockingOutcome := .timesOut }).blockingKilled = true :=
  blocking_timeout_kills_and_fails _ _ rfl rfl (by decide) rfl

/-- C10: `absent` with no pid_file and an omitted command does not raise:
the scan absorbs the per-process `TypeError` and returns none, and the
reconciler exits successfully with `not_found`, `changed=false`. -/
theorem absent_none_command_not_found (p : Params) (w : World)
    (hs : p.state = "absent") (hp : p.pid_file = none)
    (hc : p.command = none) :
    find_process_by_command w.infos p.command = none ∧
    (step p w).outcome = .exited
      { changed := false, stdout := "Process not found", stderr := "",
        status := "not_found" } := by
  have hfind : find_process_by_command w.infos p.command = none := by
    rw [hc]; exact find_process_by_command_none w.infos
  refine ⟨hfind, ?_⟩
  unfold step
  rw [hs, hp, hfind]
  simp [strTruthy]

/-- C10 witness: with a non-empty process table and `command` omitted,
`absent` without pid_file reports `not_found` unchanged. -/
theorem absent_none_command_not_found_witness :
    find_process_by_command
      { w0 with infos := [⟨7, "x", "some process", "running", 0⟩] }.infos
      none = none ∧
    (step { p0 with state := "absent", command := none }
      { w0 with infos := [⟨7, "x", "some process", "running", 0⟩] }).outcome
      = .exited
          { changed := false, stdout := "Process not found",
            stderr := "", status := "not_found" } :=
  absent_none_command_not_found
    { p0 with state := "absent", command := none }
    { w0 with infos := [⟨7, "x", "some process", "running", 0⟩] }
    rfl rfl rfl

end Process
